import Mathlib

/-!
Shallow embedding of the machine-monitoring repository: the database schema
and row-level-security (RLS) policies from the SQL migrations, and the
client-side visibility filters and mutation handlers from the React
components.  Uuid columns are modelled as `String`, `timestamptz` as a
logical `Nat` clock, and each table as a `List` of row structures.
-/

namespace MachineMonitoring

/-- `profiles.role`: after the department migration the check constraint is
`role IN ('admin', 'team_leader', 'operator')`. -/
inductive Role where
  | admin
  | team_leader
  | operator
deriving DecidableEq

/-- Row of the `profiles` table (columns relevant to the policies). -/
structure Profile where
  id : String
  email : String
  full_name : String
  role : Role
deriving DecidableEq

/-- Row of the `departments` table. -/
structure Department where
  id : String
  name : String
  description : String
deriving DecidableEq

/-- Row of the `department_leaders` junction table
(`department_id REFERENCES departments(id) ON DELETE CASCADE`). -/
structure DepartmentLeader where
  id : String
  department_id : String
  user_id : String
deriving DecidableEq

/-- Row of the `machines` table.  `department_id` was added by
`ALTER TABLE machines ADD COLUMN department_id uuid REFERENCES departments(id)`
with no `ON DELETE` action, so it is nullable and restricts deletes. -/
structure Machine where
  id : String
  machine_code : String
  machine_name : String
  description : String
  current_status : String
  last_updated_at : Nat
  last_updated_by : Option String
  department_id : Option String
deriving DecidableEq

/-- Row of the `machine_operators` junction table
(`machine_id REFERENCES machines(id) ON DELETE CASCADE`). -/
structure MachineOperator where
  id : String
  machine_id : String
  user_id : String
deriving DecidableEq

/-- Row of the `status_types` table. -/
structure StatusType where
  id : String
  name : String
  color : String
  is_default : Bool
  is_active : Bool
  display_order : Int
deriving DecidableEq

/-- Row of the `status_history` table (with the `previous_status` column
added by the second migration). -/
structure StatusHistory where
  id : String
  machine_id : String
  status : String
  comment : String
  changed_by : String
  changed_at : Nat
  previous_status : String
deriving DecidableEq

/-- The database state: one list per table. -/
structure DB where
  profiles : List Profile
  departments : List Department
  department_leaders : List DepartmentLeader
  machines : List Machine
  machine_operators : List MachineOperator
  status_types : List StatusType
  status_history : List StatusHistory
deriving DecidableEq

deriving instance DecidableEq for Except

/-! ## RLS policy conditions, translated clause by clause from the SQL -/

/-- `EXISTS (SELECT 1 FROM profiles WHERE profiles.id = auth.uid() AND
profiles.role = 'admin')`. -/
def isAdmin (uid : String) (db : DB) : Bool :=
  db.profiles.any (fun p => p.id == uid && p.role == Role.admin)

/-- `EXISTS (SELECT 1 FROM profiles WHERE profiles.id = auth.uid() AND
profiles.role IN ('admin', 'operator'))`. -/
def isAdminOrOperator (uid : String) (db : DB) : Bool :=
  db.profiles.any (fun p =>
    p.id == uid && (p.role == Role.admin || p.role == Role.operator))

/-- `EXISTS (SELECT 1 FROM profiles WHERE profiles.id = auth.uid() AND
profiles.role IN ('admin', 'team_leader'))`. -/
def isAdminOrTeamLeader (uid : String) (db : DB) : Bool :=
  db.profiles.any (fun p =>
    p.id == uid && (p.role == Role.admin || p.role == Role.team_leader))

/-- `EXISTS (SELECT 1 FROM profiles WHERE profiles.id = auth.uid() AND
profiles.role = 'team_leader')`. -/
def isTeamLeader (uid : String) (db : DB) : Bool :=
  db.profiles.any (fun p => p.id == uid && p.role == Role.team_leader)

/-- SQL equality between a nullable column and a non-null one:
`machines.department_id = department_leaders.department_id` is false
(unknown) when `machines.department_id IS NULL`. -/
def sqlEqOpt (a : Option String) (b : String) : Bool :=
  a == some b

/-- Policy "Operators can view assigned machines" (SELECT on `machines`):
admin, or a `department_leaders` row for the callers uid and the machines
department, or a `machine_operators` row for the callers uid and the
machine. -/
def machineSelectPolicy (uid : String) (m : Machine) (db : DB) : Bool :=
  isAdmin uid db
    || db.department_leaders.any (fun dl =>
        dl.user_id == uid && sqlEqOpt m.department_id dl.department_id)
    || db.machine_operators.any (fun mo =>
        mo.user_id == uid && mo.machine_id == m.id)

/-- The rows of `machines` visible to `uid` under RLS. -/
def visibleMachines (uid : String) (db : DB) : List Machine :=
  db.machines.filter (fun m => machineSelectPolicy uid m db)

/-- Policy "Admins and team leaders can insert machines" (INSERT on
`machines`, WITH CHECK): admin, or team_leader with a `department_leaders`
row for the callers uid and the new rows `department_id`. -/
def machineInsertPolicy (uid : String) (m : Machine) (db : DB) : Bool :=
  isAdmin uid db
    || (isTeamLeader uid db
        && db.department_leaders.any (fun dl =>
            dl.user_id == uid && sqlEqOpt m.department_id dl.department_id))

/-- Policy "Admins and team leaders can manage machine operators"
(FOR ALL on `machine_operators`, USING and WITH CHECK are the same
condition): the caller has role admin or team_leader.  The machine and
its department do not occur in the condition. -/
def machineOperatorManagePolicy (uid : String) (db : DB) : Bool :=
  isAdminOrTeamLeader uid db

/-- Policy "Admins and operators can insert status history" (INSERT on
`status_history`, WITH CHECK): `auth.uid() = changed_by` and the caller
has role admin or operator. -/
def statusHistoryInsertPolicy (uid : String) (row : StatusHistory) (db : DB) : Bool :=
  uid == row.changed_by && isAdminOrOperator uid db

/-- An INSERT into `status_history` under RLS: accepted (the row is
appended) exactly when the WITH CHECK condition holds, otherwise refused
with no state change. -/
def insertStatusHistory (uid : String) (row : StatusHistory) (db : DB) :
    Except String DB :=
  if statusHistoryInsertPolicy uid row db then
    Except.ok { db with status_history := db.status_history ++ [row] }
  else
    Except.error "new row violates row-level security policy"

/-- Policy "Admins can delete status types" (DELETE on `status_types`,
USING): the caller is admin AND `is_default = false`. -/
def statusTypeDeletePolicy (uid : String) (st : StatusType) (db : DB) : Bool :=
  isAdmin uid db && st.is_default == false

/-- Policy "Admins can update status types" (UPDATE on `status_types`). -/
def statusTypeUpdatePolicy (uid : String) (db : DB) : Bool :=
  isAdmin uid db

/-- A DELETE on `status_types` filtered by `id`: RLS silently retains any
row whose USING condition fails. -/
def deleteStatusType (uid : String) (stId : String) (db : DB) : DB :=
  { db with status_types := db.status_types.filter (fun st =>
      !(st.id == stId && statusTypeDeletePolicy uid st db)) }

/-- Client `handleDelete` in StatusTypeManagement.tsx: an early return when
`status.is_default` (nothing is sent to the backend), otherwise the RLS
delete by id. -/
def handleDeleteStatusType (uid : String) (status : StatusType) (db : DB) : DB :=
  if status.is_default then db
  else deleteStatusType uid status.id db

/-- Client `handleToggleActive` in StatusTypeManagement.tsx combined with the
RLS UPDATE policy on `status_types`: rows matching the id filter are updated
only when the admin policy holds, otherwise silently retained. -/
def handleToggleActive (uid : String) (status : StatusType) (db : DB) : DB :=
  { db with status_types := db.status_types.map (fun st =>
      if st.id == status.id && statusTypeUpdatePolicy uid db then
        { st with is_active := !status.is_active }
      else st) }

/-- Policy "Admins can delete departments" (DELETE on `departments`, USING). -/
def departmentDeletePolicy (uid : String) (db : DB) : Bool :=
  isAdmin uid db

/-- A DELETE on `departments` filtered by `id` (client
`handleDeleteDepartment`).  Rows failing the RLS USING condition are
silently retained.  `machines.department_id REFERENCES departments(id)`
carries no `ON DELETE` action, so deleting a department still referenced
by a machine raises a foreign-key violation and nothing changes;
`department_leaders.department_id` has `ON DELETE CASCADE`, so on success
the assignment rows of the deleted departments are removed. -/
def deleteDepartment (uid : String) (deptId : String) (db : DB) :
    Except String DB :=
  let targets := db.departments.filter (fun d =>
    d.id == deptId && departmentDeletePolicy uid db)
  if targets.any (fun d => db.machines.any (fun m =>
      m.department_id == some d.id)) then
    Except.error "violates foreign key constraint on machines.department_id"
  else
    Except.ok { db with
      departments := db.departments.filter (fun d =>
        !(d.id == deptId && departmentDeletePolicy uid db)),
      department_leaders := db.department_leaders.filter (fun dl =>
        !(targets.any (fun d => d.id == dl.department_id))) }

/-! ## The profiles UPDATE path -/

/-- Policy "Users can update own profile", USING clause:
`auth.uid() = id`. -/
def profileUpdateUsing (uid : String) (p : Profile) : Bool :=
  uid == p.id

/-- Policy "Users can update own profile", WITH CHECK clause:
`auth.uid() = id AND role = (SELECT role FROM profiles WHERE id = auth.uid())`;
the subquery reads the pre-statement snapshot of `profiles`. -/
def profileUpdateCheck (uid : String) (newRow : Profile) (db : DB) : Bool :=
  uid == newRow.id
    && ((db.profiles.find? (fun q => q.id == uid)).map Profile.role
          == some newRow.role)

/-- An UPDATE on `profiles` with a client-side row filter and per-row change
function, under RLS: rows failing the filter or the USING clause are left
alone (matching zero rows is not an error); if any updated row fails the
WITH CHECK clause the whole statement errors with no state change. -/
def updateProfiles (uid : String) (rowFilter : Profile → Bool)
    (change : Profile → Profile) (db : DB) : Except String DB :=
  let hit : Profile → Bool := fun p => rowFilter p && profileUpdateUsing uid p
  if (db.profiles.filter hit).all (fun p => profileUpdateCheck uid (change p) db) then
    Except.ok { db with profiles := db.profiles.map (fun p =>
      if hit p then change p else p) }
  else
    Except.error "new row violates row-level security policy"

/-- Client `handleRoleChange` in UserManagement.tsx: a team_leader actor
returns early (no request is sent); otherwise an update setting `role` to
`newRole` on the rows with `id = userId` runs under the profiles
RLS policies. -/
def handleRoleChange (actorRole : Role) (uid : String) (userId : String)
    (newRole : Role) (db : DB) : Except String DB :=
  if actorRole == Role.team_leader then
    Except.ok db
  else
    updateProfiles uid (fun p => p.id == userId)
      (fun p => { p with role := newRole }) db

/-! ## The status_history policy set (for append-only audit) -/

/-- A SQL command kind. -/
inductive Cmd where
  | select
  | insert
  | update
  | delete
deriving DecidableEq

/-- A row-level-security policy on `status_history`: the command it is FOR,
the role it is TO, and its condition (USING for SELECT/DELETE, WITH CHECK
for INSERT) evaluated at the acting uid and the row. -/
structure HistoryPolicy where
  cmd : Cmd
  target : String
  cond : String → StatusHistory → DB → Bool

/-- Every policy the migrations create on `status_history`: the two SELECT
policies ("All users can view status history" to authenticated, "Anyone can
view status history" to anon) and the INSERT policy ("Admins and operators
can insert status history").  No UPDATE or DELETE policy is ever created. -/
def statusHistoryPolicies : List HistoryPolicy :=
  [ { cmd := Cmd.select, target := "authenticated", cond := fun _ _ _ => true },
    { cmd := Cmd.insert, target := "authenticated",
      cond := fun uid row db => statusHistoryInsertPolicy uid row db },
    { cmd := Cmd.select, target := "anon", cond := fun _ _ _ => true } ]

/-- RLS on a table with row security enabled and only permissive policies:
a command on a row is allowed exactly when some policy FOR that command has
a true condition.  With no policy for the command, everything is denied. -/
def statusHistoryAllowed (c : Cmd) (uid : String) (row : StatusHistory)
    (db : DB) : Bool :=
  statusHistoryPolicies.any (fun p => p.cmd == c && p.cond uid row db)

/-! ## Client-side visibility filters -/

/-- The sentinel uuid both history/machine list components compare against
to force an empty result when the callers assignment set is empty. -/
def zeroUuid : String := "00000000-0000-0000-0000-000000000000"

/-- Descending order on `changed_at` (the order-by-changed_at-descending
clauses of the history queries). -/
def newerFirst (a b : StatusHistory) : Prop :=
  b.changed_at ≤ a.changed_at

instance : DecidableRel newerFirst := fun a b =>
  inferInstanceAs (Decidable (b.changed_at ≤ a.changed_at))

instance : IsTotal StatusHistory newerFirst :=
  ⟨fun a b => Nat.le_total b.changed_at a.changed_at⟩

instance : IsTrans StatusHistory newerFirst :=
  ⟨fun _ _ _ hab hbc => Nat.le_trans hbc hab⟩

/-- `ORDER BY changed_at DESC` on a list of history rows. -/
def sortNewestFirst (l : List StatusHistory) : List StatusHistory :=
  List.insertionSort newerFirst l

/-- The machine-id restriction the HistoryPage query builder ends up with. -/
inductive HistoryFilter where
  | all
  | inMachines (ids : List String)
  | eqMachine (id : String)
deriving DecidableEq

/-- Apply a `HistoryFilter` to the `status_history` table. -/
def applyHistoryFilter (f : HistoryFilter) (rows : List StatusHistory) :
    List StatusHistory :=
  match f with
  | HistoryFilter.all => rows
  | HistoryFilter.inMachines ids => rows.filter (fun h => ids.contains h.machine_id)
  | HistoryFilter.eqMachine i => rows.filter (fun h => h.machine_id == i)

/-- The query restriction built by `loadHistory` in HistoryPage: operators
restrict to their `machine_operators` machines (or the zero uuid when they
have none); team leaders restrict to the machines of their
`department_leaders` departments (or the zero uuid when either list is
empty); other roles leave the query unfiltered. -/
def historyPageFilter (uid : String) (role : Role) (db : DB) : HistoryFilter :=
  match role with
  | Role.operator =>
    let machineIds := (db.machine_operators.filter
      (fun a => a.user_id == uid)).map MachineOperator.machine_id
    if machineIds.length > 0 then HistoryFilter.inMachines machineIds
    else HistoryFilter.eqMachine zeroUuid
  | Role.team_leader =>
    let deptIds := (db.department_leaders.filter
      (fun d => d.user_id == uid)).map DepartmentLeader.department_id
    if deptIds.length > 0 then
      let machineIds := (db.machines.filter
        (fun m => deptIds.any (fun d => m.department_id == some d))).map Machine.id
      if machineIds.length > 0 then HistoryFilter.inMachines machineIds
      else HistoryFilter.eqMachine zeroUuid
    else HistoryFilter.eqMachine zeroUuid
  | Role.admin => HistoryFilter.all

/-- `loadHistory` in HistoryPage: the filtered table ordered by
`changed_at` descending. -/
def loadHistoryPage (uid : String) (role : Role) (db : DB) :
    List StatusHistory :=
  sortNewestFirst (applyHistoryFilter (historyPageFilter uid role db)
    db.status_history)

/-- `loadData` in MachineManagement: a team_leader sees the machines of
their `department_leaders` departments, ordered by code (order elided), and
the zero-uuid empty query when they lead no department; every other role
fetches the whole table. -/
def loadMachinesManagement (uid : String) (role : Role) (db : DB) :
    List Machine :=
  match role with
  | Role.team_leader =>
    let deptIds := (db.department_leaders.filter
      (fun d => d.user_id == uid)).map DepartmentLeader.department_id
    if deptIds.length > 0 then
      db.machines.filter (fun m => deptIds.any (fun d => m.department_id == some d))
    else
      db.machines.filter (fun m => m.id == zeroUuid)
  | _ => db.machines

/-- `loadHistory` in the StatusHistory detail component: the rows of one
machine, ordered by `changed_at` descending, limited to 20. -/
def loadHistoryDetail (machineId : String) (db : DB) : List StatusHistory :=
  (sortNewestFirst (db.status_history.filter
    (fun h => h.machine_id == machineId))).take 20

/-! ## Concrete test fixtures -/

/-- An admin profile. -/
def adminP : Profile :=
  { id := "a", email := "a@x", full_name := "Alice", role := Role.admin }

/-- A team_leader profile. -/
def leaderP : Profile :=
  { id := "t", email := "t@x", full_name := "Tara", role := Role.team_leader }

/-- An operator profile. -/
def operP : Profile :=
  { id := "o", email := "o@x", full_name := "Omar", role := Role.operator }

/-- Department QC. -/
def deptQC : Department := { id := "d1", name := "QC", description := "" }

/-- Department Prod. -/
def deptProd : Department := { id := "d2", name := "Prod", description := "" }

/-- A machine in department QC. -/
def machQC : Machine :=
  { id := "m1", machine_code := "M100", machine_name := "Mill", description := "",
    current_status := "Running", last_updated_at := 0, last_updated_by := none,
    department_id := some "d1" }

/-- A machine in department Prod. -/
def machProd : Machine :=
  { id := "m2", machine_code := "M200", machine_name := "Press", description := "",
    current_status := "Idle", last_updated_at := 0, last_updated_by := none,
    department_id := some "d2" }

/-- The leader assignment of Tara to QC. -/
def dlQC : DepartmentLeader := { id := "l1", department_id := "d1", user_id := "t" }

/-- An empty database. -/
def emptyDB : DB :=
  { profiles := [], departments := [], department_leaders := [], machines := [],
    machine_operators := [], status_types := [], status_history := [] }

/-- Fixture for the empty-scope claim: an operator with no machine
assignments and no leader assignments, one machine and one history row. -/
def dbScope : DB :=
  { emptyDB with
    profiles := [operP]
    departments := [deptQC]
    machines := [machQC]
    status_history := [{
      id := "h1"
      machine_id := "m1"
      status := "Idle"
      comment := ""
      changed_by := "o"
      changed_at := 1
      previous_status := "Running" }] }

/-- Fixture for department deletion: an admin, department QC and a machine
still referencing it. -/
def dbDeptRef : DB :=
  { emptyDB with
    profiles := [adminP]
    departments := [deptQC]
    department_leaders := [dlQC]
    machines := [machQC] }

/-- Fixture for department deletion success: an admin, departments QC and
Prod with a leader assignment on QC, and a machine in Prod only. -/
def dbDeptFree : DB :=
  { emptyDB with
    profiles := [adminP]
    departments := [deptQC, deptProd]
    department_leaders := [dlQC]
    machines := [machProd] }

/-- Fixture for the status-history insert policy: a team_leader leading QC,
the QC machine in scope, and an operator assigned to the QC machine. -/
def dbInsert : DB :=
  { emptyDB with
    profiles := [leaderP, operP]
    departments := [deptQC]
    department_leaders := [dlQC]
    machines := [machQC]
    machine_operators := [{ id := "a1", machine_id := "m1", user_id := "o" }] }

/-- A history row recorded by the team leader for the QC machine. -/
def recByLeader : StatusHistory :=
  { id := "h2", machine_id := "m1", status := "Fault", comment := "",
    changed_by := "t", changed_at := 2, previous_status := "Running" }

/-- A history row recorded by the operator for the QC machine. -/
def recByOper : StatusHistory :=
  { id := "h3", machine_id := "m1", status := "Idle", comment := "",
    changed_by := "o", changed_at := 3, previous_status := "Fault" }

/-- Fixture for machine-operator management: a team_leader with no led
departments at all, and a machine that sits in department QC. -/
def dbNoLead : DB :=
  { emptyDB with
    profiles := [leaderP]
    departments := [deptQC]
    machines := [machQC] }

/-- Fixture for machine insertion: an admin and a team_leader leading QC
but not Prod. -/
def dbInsertMach : DB :=
  { emptyDB with
    profiles := [adminP, leaderP]
    departments := [deptQC, deptProd]
    department_leaders := [dlQC] }

/-- A default status type. -/
def stRunning : StatusType :=
  { id := "s1", name := "Running", color := "green", is_default := true,
    is_active := true, display_order := 1 }

/-- Fixture for status-type deletion: an admin and the default Running
status type. -/
def dbStatusTypes : DB :=
  { emptyDB with profiles := [adminP], status_types := [stRunning] }

/-- Fixture for the role-change path: an admin and an operator. -/
def dbRoles : DB := { emptyDB with profiles := [adminP, operP] }

/-- Fixture for the 20-row history view: 25 rows for machine m1 with
strictly decreasing timestamps. -/
def dbManyHist : DB :=
  { emptyDB with
    machines := [machQC]
    status_history := (List.range 25).map (fun i =>
      { id := toString i, machine_id := "m1", status := "Running",
        comment := "", changed_by := "o", changed_at := 24 - i,
        previous_status := "" }) }

/-- The newest row of `dbManyHist`. -/
def recTop : StatusHistory :=
  { id := "0", machine_id := "m1", status := "Running", comment := "",
    changed_by := "o", changed_at := 24, previous_status := "" }

/-- The oldest row of `dbManyHist`. -/
def recBot : StatusHistory :=
  { id := "24", machine_id := "m1", status := "Running", comment := "",
    changed_by := "o", changed_at := 0, previous_status := "" }

/-! ## Helper lemmas -/

/-- Unfolding of the status-history INSERT check to its logical reading. -/
theorem statusHistoryInsertPolicy_iff (uid : String) (row : StatusHistory)
    (db : DB) :
    statusHistoryInsertPolicy uid row db = true ↔
      uid = row.changed_by ∧ ∃ p ∈ db.profiles, p.id = uid ∧
        (p.role = Role.admin ∨ p.role = Role.operator) := by
  simp [statusHistoryInsertPolicy, isAdminOrOperator, List.any_eq_true]

/-- Unfolding of the admin check to its logical reading. -/
theorem isAdmin_iff (uid : String) (db : DB) :
    isAdmin uid db = true ↔
      ∃ p ∈ db.profiles, p.id = uid ∧ p.role = Role.admin := by
  simp [isAdmin, List.any_eq_true]

/-! ## Claim theorems -/

/-- C4: `status_history` carries only the two SELECT policies and one
INSERT policy; with row security enabled and no UPDATE or DELETE policy,
every update and every delete of an existing history record is rejected
for every actor, whatever their role — the history is append-only. -/
theorem status_history_append_only :
    ∀ (uid : String) (row : StatusHistory) (db : DB),
      statusHistoryAllowed Cmd.update uid row db = false ∧
      statusHistoryAllowed Cmd.delete uid row db = false := by
  intro uid row db
  exact ⟨rfl, rfl⟩

/-- C5 counterexample: in `dbNoLead` the actor t has role team_leader but
leads no department, and machine m1 sits in department d1; the claim says
t must be rejected when managing machine-operator assignments for m1, yet
the FOR ALL policy on `machine_operators` evaluates to true for t — it
checks only the role, never the machines department. -/
theorem machine_operator_scope_counterexample :
    machineOperatorManagePolicy "t" dbNoLead = true ∧
    dbNoLead.department_leaders = [] ∧
    machQC ∈ dbNoLead.machines ∧ machQC.department_id = some "d1" := by
  decide

/-- C5 amended: a MachineOperatorAssignment may be created or deleted by
any actor whose profile role is admin or team_leader, regardless of which
department the machine belongs to; operators (and everyone else) are
rejected.  The machines department and the actors led departments play no
part in the policy. -/
theorem machine_operator_manage_amended (uid : String) (db : DB) :
    machineOperatorManagePolicy uid db = true ↔
      ∃ p ∈ db.profiles, p.id = uid ∧
        (p.role = Role.admin ∨ p.role = Role.team_leader) := by
  simp [machineOperatorManagePolicy, isAdminOrTeamLeader, List.any_eq_true]

/-- C8 (code bug): in `dbRoles` the admin a calls the role-change path on
operator o; the only UPDATE policy on `profiles` requires
`auth.uid() = id`, so the statement matches zero rows and returns success
with o still an operator — no admin role change is possible even though
the migration header says only admins can modify user roles.  Self-update
of a non-role field by o succeeds, while a self role change by o violates
the WITH CHECK clause and errors. -/
theorem profile_role_change_bug :
    handleRoleChange Role.admin "a" "o" Role.team_leader dbRoles =
        Except.ok dbRoles ∧
    (dbRoles.profiles.filter (fun p => p.id == "o")).map Profile.role =
        [Role.operator] ∧
    updateProfiles "o" (fun p => p.id == "o")
        (fun p => { p with full_name := "Omar K" }) dbRoles =
      Except.ok { dbRoles with
        profiles := [adminP, { operP with full_name := "Omar K" }] } ∧
    updateProfiles "o" (fun p => p.id == "o")
        (fun p => { p with role := Role.admin }) dbRoles =
      Except.error "new row violates row-level security policy" := by
  decide

/-- C3 counterexample: in `dbInsert` the actor t is a team_leader leading
department d1 and machine m1 sits in d1, so m1 is squarely in scope; the
claim says the status-change insert by t is accepted, yet the WITH CHECK of
the status-history INSERT policy admits only the roles admin and operator,
so t is rejected.  (The scope-free acceptance of operators is covered by
the amended theorem.) -/
theorem status_insert_team_leader_counterexample :
    leaderP ∈ dbInsert.profiles ∧ leaderP.role = Role.team_leader ∧
    dlQC ∈ dbInsert.department_leaders ∧ dlQC.user_id = "t" ∧
    machQC ∈ dbInsert.machines ∧ machQC.department_id = some dlQC.department_id ∧
    recByLeader.machine_id = machQC.id ∧ recByLeader.changed_by = "t" ∧
    insertStatusHistory "t" recByLeader dbInsert =
      Except.error "new row violates row-level security policy" := by
  decide

/-- C3 amended: a StatusHistoryRecord insertion is accepted exactly when
the acting identity equals the rows `changed_by` and the actors profile
role is admin or operator — with no scope condition on the machine at all;
team_leader actors are always rejected, and any rejected attempt leaves
the state unchanged (the insert errors without appending). -/
theorem status_insert_amended (uid : String) (row : StatusHistory) (db : DB) :
    (insertStatusHistory uid row db =
        Except.ok { db with status_history := db.status_history ++ [row] } ↔
      uid = row.changed_by ∧ ∃ p ∈ db.profiles, p.id = uid ∧
        (p.role = Role.admin ∨ p.role = Role.operator)) ∧
    (statusHistoryInsertPolicy uid row db = false →
      insertStatusHistory uid row db =
        Except.error "new row violates row-level security policy") := by
  constructor
  · rw [← statusHistoryInsertPolicy_iff]
    unfold insertStatusHistory
    constructor
    · intro h
      by_contra hfalse
      rw [Bool.not_eq_true] at hfalse
      rw [hfalse] at h
      simp at h
    · intro h
      rw [h]
      simp
  · intro h
    unfold insertStatusHistory
    rw [h]
    simp

/-- C3 amended witness: in `dbInsert` the operator o (assigned to m1) has
an insert accepted, and the team_leader t has an insert rejected. -/
theorem status_insert_amended_witness :
    insertStatusHistory "o" recByOper dbInsert =
      Except.ok { dbInsert with
        status_history := dbInsert.status_history ++ [recByOper] } ∧
    insertStatusHistory "t" recByLeader dbInsert =
      Except.error "new row violates row-level security policy" :=
  ⟨(status_insert_amended "o" recByOper dbInsert).1.mpr (by decide),
   (status_insert_amended "t" recByLeader dbInsert).2 (by decide)⟩

/-- C9: whatever row an actor manages to insert into `status_history`, its
`changed_by` column equals the acting identity — the WITH CHECK clause
`auth.uid() = changed_by` makes attributing a record to someone else
impossible. -/
theorem history_changed_by_is_actor (uid : String) (row : StatusHistory)
    (db : DB) (db2 : DB) :
    insertStatusHistory uid row db = Except.ok db2 → row.changed_by = uid := by
  unfold insertStatusHistory
  by_cases h : statusHistoryInsertPolicy uid row db = true
  · intro _
    have h2 := h
    unfold statusHistoryInsertPolicy at h2
    rw [Bool.and_eq_true] at h2
    exact (beq_iff_eq.mp h2.1).symm
  · rw [Bool.not_eq_true] at h
    rw [h]
    intro hbad
    simp at hbad

/-- C9 witness: the accepted insert by operator o is attributed to o. -/
theorem history_changed_by_witness : recByOper.changed_by = "o" :=
  history_changed_by_is_actor "o" recByOper dbInsert
    { dbInsert with status_history := dbInsert.status_history ++ [recByOper] }
    (by decide)

/-- C7: a StatusType with `is_default = true` survives every delete
attempt: the DELETE policy on `status_types` evaluates to false for every
actor (admin included), the RLS delete leaves the row in the catalog, the
client guard refuses to even send the delete, and an admin can still run
the UPDATE that deactivates the row. -/
theorem default_status_type_protected (db : DB) (uid : String)
    (st : StatusType) (hmem : st ∈ db.status_types)
    (hdef : st.is_default = true) :
    statusTypeDeletePolicy uid st db = false ∧
    st ∈ (deleteStatusType uid st.id db).status_types ∧
    handleDeleteStatusType uid st db = db ∧
    ((∃ p ∈ db.profiles, p.id = uid ∧ p.role = Role.admin) →
      statusTypeUpdatePolicy uid db = true) := by
  have hpol : statusTypeDeletePolicy uid st db = false := by
    unfold statusTypeDeletePolicy
    rw [hdef]
    simp
  refine ⟨hpol, ?_, ?_, ?_⟩
  · unfold deleteStatusType
    refine List.mem_filter.mpr ⟨hmem, ?_⟩
    rw [hpol]
    simp
  · unfold handleDeleteStatusType
    rw [hdef]
    simp
  · intro h
    exact (isAdmin_iff uid db).mpr h

/-- C7 witness: in `dbStatusTypes` the default Running status survives the
admin delete, the client guard is a no-op, and the admin update stays
permitted. -/
theorem default_status_type_protected_witness :
    stRunning ∈ (deleteStatusType "a" stRunning.id dbStatusTypes).status_types ∧
    handleDeleteStatusType "a" stRunning dbStatusTypes = dbStatusTypes ∧
    statusTypeUpdatePolicy "a" dbStatusTypes = true := by
  have h := default_status_type_protected dbStatusTypes "a" stRunning
    (by decide) (by decide)
  exact ⟨h.2.1, h.2.2.1, h.2.2.2 ⟨adminP, by decide, by decide⟩⟩

/-- C6: machine creation under the INSERT policy on `machines` — an admin
actor is accepted for any department, and an actor whose profile role is
team_leader is accepted exactly when the new rows department is one of
that actors led departments (a `department_leaders` row exists for the
actor and the rows non-null department). -/
theorem machine_insert_policy_correct (db : DB) (uid : String) (m : Machine) :
    ((∃ p ∈ db.profiles, p.id = uid ∧ p.role = Role.admin) →
      machineInsertPolicy uid m db = true) ∧
    ((∀ p ∈ db.profiles, p.id = uid → p.role = Role.team_leader) →
      (machineInsertPolicy uid m db = true ↔
        ((∃ p ∈ db.profiles, p.id = uid) ∧
          ∃ dl ∈ db.department_leaders, dl.user_id = uid ∧
            m.department_id = some dl.department_id))) := by
  constructor
  · intro h
    unfold machineInsertPolicy
    rw [(isAdmin_iff uid db).mpr h]
    simp
  · intro hOnly
    have hadm : isAdmin uid db = false := by
      by_contra hx
      rw [Bool.not_eq_false] at hx
      obtain ⟨p, hp, hid, hrole⟩ := (isAdmin_iff uid db).mp hx
      have hr2 := hOnly p hp hid
      rw [hr2] at hrole
      exact absurd hrole (by decide)
    have htl : isTeamLeader uid db = true ↔ ∃ p ∈ db.profiles, p.id = uid := by
      unfold isTeamLeader
      simp only [List.any_eq_true, Bool.and_eq_true, beq_iff_eq]
      constructor
      · rintro ⟨p, hp, hid, _⟩
        exact ⟨p, hp, hid⟩
      · rintro ⟨p, hp, hid⟩
        exact ⟨p, hp, hid, hOnly p hp hid⟩
    unfold machineInsertPolicy sqlEqOpt
    rw [hadm]
    simp only [Bool.false_or, Bool.and_eq_true, List.any_eq_true, beq_iff_eq,
      htl]

/-- C6 witness: in `dbInsertMach` the admin may insert a machine in Prod,
the team_leader t may insert a machine in the led department QC, and the
insert of a machine in Prod by t is rejected. -/
theorem machine_insert_policy_witness :
    machineInsertPolicy "a" machProd dbInsertMach = true ∧
    machineInsertPolicy "t" machQC dbInsertMach = true ∧
    machineInsertPolicy "t" machProd dbInsertMach = false := by
  have ha := (machine_insert_policy_correct dbInsertMach "a" machProd).1
    ⟨adminP, by decide, by decide⟩
  have ht1 := (machine_insert_policy_correct dbInsertMach "t" machQC).2
    (by decide)
  have ht2 := (machine_insert_policy_correct dbInsertMach "t" machProd).2
    (by decide)
  refine ⟨ha, ht1.mpr (by decide), ?_⟩
  cases hx : machineInsertPolicy "t" machProd dbInsertMach
  · rfl
  · exact absurd (ht2.mp hx) (by decide)

/-- C2 counterexample: in `dbDeptRef` the admin a deletes department d1
while machine m1 still references it; `machines.department_id` carries no
ON DELETE action, so the delete is rejected by the foreign-key constraint —
the machines reference is never severed to null and the
DepartmentLeaderAssignment rows of d1 survive, contradicting the claimed
cascade-null behaviour. -/
theorem department_delete_fk_counterexample :
    adminP ∈ dbDeptRef.profiles ∧ adminP.id = "a" ∧
    adminP.role = Role.admin ∧
    deptQC ∈ dbDeptRef.departments ∧ deptQC.id = "d1" ∧
    machQC ∈ dbDeptRef.machines ∧ machQC.department_id = some "d1" ∧
    deleteDepartment "a" "d1" dbDeptRef =
      Except.error "violates foreign key constraint on machines.department_id" := by
  decide

/-- C2 amended: an admin can delete a department only when no machine
references it; the successful delete removes the department and (by the ON
DELETE CASCADE on `department_leaders.department_id`) every
DepartmentLeaderAssignment referencing it, while the machines and the
status history are untouched.  A department still referenced by a machine
cannot be deleted at all: the statement fails with a foreign-key violation
and nothing changes (there is no cascade-null). -/
theorem department_delete_amended (db : DB) (uid : String) (deptId : String)
    (hAdmin : ∃ p ∈ db.profiles, p.id = uid ∧ p.role = Role.admin)
    (hDept : ∃ d ∈ db.departments, d.id = deptId)
    (hNoRef : ∀ m ∈ db.machines, m.department_id ≠ some deptId) :
    ∃ db2, deleteDepartment uid deptId db = Except.ok db2 ∧
      (∀ d ∈ db2.departments, d.id ≠ deptId) ∧
      (∀ dl ∈ db2.department_leaders, dl.department_id ≠ deptId) ∧
      db2.machines = db.machines ∧
      db2.status_history = db.status_history := by
  have hadm : departmentDeletePolicy uid db = true :=
    (isAdmin_iff uid db).mpr hAdmin
  have htid : ∀ d ∈ db.departments.filter (fun d =>
      d.id == deptId && departmentDeletePolicy uid db), d.id = deptId := by
    intro d hd
    have h2 := (List.mem_filter.mp hd).2
    rw [Bool.and_eq_true] at h2
    exact beq_iff_eq.mp h2.1
  have hcond : (db.departments.filter (fun d =>
      d.id == deptId && departmentDeletePolicy uid db)).any (fun d =>
        db.machines.any (fun m => m.department_id == some d.id)) = false := by
    rw [List.any_eq_false]
    intro d hd
    rw [List.any_eq_true]
    rintro ⟨m, hm, hmd⟩
    exact hNoRef m hm (by rw [beq_iff_eq.mp hmd, htid d hd])
  unfold deleteDepartment
  simp only [hcond, Bool.false_eq_true, if_false]
  refine ⟨_, rfl, ?_, ?_, rfl, rfl⟩
  · intro d hd
    have h2 := (List.mem_filter.mp hd).2
    rw [Bool.not_eq_true', hadm, Bool.and_true] at h2
    exact beq_eq_false_iff_ne.mp h2
  · intro dl hdl hbad
    obtain ⟨d0, hd0, hd0id⟩ := hDept
    have h2 := (List.mem_filter.mp hdl).2
    rw [Bool.not_eq_true', List.any_eq_false] at h2
    refine h2 d0 (List.mem_filter.mpr ⟨hd0, ?_⟩) ?_
    · rw [Bool.and_eq_true, hadm]
      exact ⟨beq_iff_eq.mpr hd0id, rfl⟩
    · rw [beq_iff_eq]
      rw [hd0id, hbad]

/-- C2 amended witness: in `dbDeptFree` no machine references d1, so the
admin delete of d1 succeeds, removes d1 and its leader assignment, and
leaves machines and history untouched. -/
theorem department_delete_amended_witness :
    ∃ db2, deleteDepartment "a" "d1" dbDeptFree = Except.ok db2 ∧
      (∀ d ∈ db2.departments, d.id ≠ "d1") ∧
      (∀ dl ∈ db2.department_leaders, dl.department_id ≠ "d1") ∧
      db2.machines = dbDeptFree.machines ∧
      db2.status_history = dbDeptFree.status_history :=
  department_delete_amended dbDeptFree "a" "d1" ⟨adminP, by decide, by decide⟩
    ⟨deptQC, by decide, by decide⟩ (by decide)

/-- C1: an identity with only assignment-derived scope and an empty
assignment set sees nothing, never everything — an operator with no
`machine_operators` rows gets an empty history page, a team_leader with no
`department_leaders` rows gets an empty history page and an empty machine
management list (the sentinel zero uuid matches no real row), and under
the machines SELECT policy an operator with no assignments of either kind
is shown no machines. -/
theorem empty_scope_returns_empty (db : DB) (uid : String)
    (hz1 : ∀ h ∈ db.status_history, h.machine_id ≠ zeroUuid)
    (hz2 : ∀ m ∈ db.machines, m.id ≠ zeroUuid) :
    (db.machine_operators.filter (fun a => a.user_id == uid) = [] →
      loadHistoryPage uid Role.operator db = []) ∧
    (db.department_leaders.filter (fun d => d.user_id == uid) = [] →
      loadHistoryPage uid Role.team_leader db = [] ∧
      loadMachinesManagement uid Role.team_leader db = []) ∧
    ((∀ p ∈ db.profiles, p.id = uid → p.role = Role.operator) →
      db.machine_operators.filter (fun a => a.user_id == uid) = [] →
      db.department_leaders.filter (fun d => d.user_id == uid) = [] →
      visibleMachines uid db = []) := by
  have hzeroH : db.status_history.filter (fun r => r.machine_id == zeroUuid) = [] := by
    rw [List.filter_eq_nil_iff]
    intro r hr
    simp [hz1 r hr]
  have hzeroM : db.machines.filter (fun m => m.id == zeroUuid) = [] := by
    rw [List.filter_eq_nil_iff]
    intro m hm
    simp [hz2 m hm]
  refine ⟨?_, ?_, ?_⟩
  · intro h
    unfold loadHistoryPage historyPageFilter
    rw [h]
    simp only [List.map_nil, List.length_nil, gt_iff_lt, Nat.lt_irrefl,
      if_false]
    unfold applyHistoryFilter sortNewestFirst
    show List.insertionSort newerFirst
      (db.status_history.filter (fun h => h.machine_id == zeroUuid)) = []
    rw [hzeroH]
    rfl
  · intro h
    constructor
    · unfold loadHistoryPage historyPageFilter
      rw [h]
      simp only [List.map_nil, List.length_nil, gt_iff_lt, Nat.lt_irrefl,
        if_false]
      unfold applyHistoryFilter sortNewestFirst
      show List.insertionSort newerFirst
        (db.status_history.filter (fun h => h.machine_id == zeroUuid)) = []
      rw [hzeroH]
      rfl
    · unfold loadMachinesManagement
      rw [h]
      simp only [List.map_nil, List.length_nil, gt_iff_lt, Nat.lt_irrefl,
        if_false]
      exact hzeroM
  · intro hOp hmo hdl
    have hmo2 : ∀ x ∈ db.machine_operators, (x.user_id == uid) = false := by
      rw [List.filter_eq_nil_iff] at hmo
      intro x hx
      exact Bool.not_eq_true _ |>.mp (hmo x hx)
    have hdl2 : ∀ x ∈ db.department_leaders, (x.user_id == uid) = false := by
      rw [List.filter_eq_nil_iff] at hdl
      intro x hx
      exact Bool.not_eq_true _ |>.mp (hdl x hx)
    have hadm : isAdmin uid db = false := by
      rw [Bool.eq_false_iff]
      intro hx
      obtain ⟨p, hp, hid, hrole⟩ := (isAdmin_iff uid db).mp hx
      have := hOp p hp hid
      rw [this] at hrole
      exact absurd hrole (by decide)
    unfold visibleMachines
    rw [List.filter_eq_nil_iff]
    intro m hm
    unfold machineSelectPolicy
    rw [hadm]
    have h1 : db.department_leaders.any (fun dl =>
        dl.user_id == uid && sqlEqOpt m.department_id dl.department_id) = false := by
      rw [List.any_eq_false]
      intro dl hdlm
      rw [hdl2 dl hdlm, Bool.false_and]
      exact Bool.false_ne_true
    have h2 : db.machine_operators.any (fun mo =>
        mo.user_id == uid && mo.machine_id == m.id) = false := by
      rw [List.any_eq_false]
      intro mo hmom
      rw [hmo2 mo hmom, Bool.false_and]
      exact Bool.false_ne_true
    rw [h1, h2]
    simp

/-- C1 witness: in `dbScope` the operator o has no assignments of either
kind, so every view is empty even though a machine and a history row
exist. -/
theorem empty_scope_returns_empty_witness :
    loadHistoryPage "o" Role.operator dbScope = [] ∧
    loadHistoryPage "o" Role.team_leader dbScope = [] ∧
    loadMachinesManagement "o" Role.team_leader dbScope = [] ∧
    visibleMachines "o" dbScope = [] ∧
    dbScope.machines ≠ [] ∧ dbScope.status_history ≠ [] := by
  have h := empty_scope_returns_empty dbScope "o" (by decide) (by decide)
  exact ⟨h.1 (by decide), (h.2.1 (by decide)).1, (h.2.1 (by decide)).2,
    h.2.2 (by decide) (by decide) (by decide), by decide, by decide⟩

/-- C10: the per-machine detail view returns at most 20 rows; the rows are
exactly a newest-first prefix of the machines full ordered history — they
are sorted by `changed_at` descending, every returned row belongs to the
machine and to the store, every returned row is at least as recent as
every row the view cuts off, and the returned rows together with the
cut-off rows are a permutation of all of that machines rows (so older
rows beyond the 20th stay in the store, just unreturned). -/
theorem history_detail_top20 (machineId : String) (db : DB) :
    (loadHistoryDetail machineId db).length ≤ 20 ∧
    List.Sorted newerFirst (loadHistoryDetail machineId db) ∧
    (∀ x ∈ loadHistoryDetail machineId db,
      x ∈ db.status_history ∧ x.machine_id = machineId) ∧
    (∀ x ∈ loadHistoryDetail machineId db,
      ∀ y ∈ (sortNewestFirst (db.status_history.filter
          (fun h => h.machine_id == machineId))).drop 20,
        y.changed_at ≤ x.changed_at) ∧
    (loadHistoryDetail machineId db ++
        (sortNewestFirst (db.status_history.filter
          (fun h => h.machine_id == machineId))).drop 20).Perm
      (db.status_history.filter (fun h => h.machine_id == machineId)) := by
  have hsorted : List.Sorted newerFirst (sortNewestFirst
      (db.status_history.filter (fun h => h.machine_id == machineId))) := by
    unfold sortNewestFirst
    exact List.sorted_insertionSort newerFirst _
  have hperm : (sortNewestFirst (db.status_history.filter
      (fun h => h.machine_id == machineId))).Perm
      (db.status_history.filter (fun h => h.machine_id == machineId)) := by
    unfold sortNewestFirst
    exact List.perm_insertionSort newerFirst _
  have hsplit : (sortNewestFirst (db.status_history.filter
        (fun h => h.machine_id == machineId))).take 20 ++
      (sortNewestFirst (db.status_history.filter
        (fun h => h.machine_id == machineId))).drop 20 =
      sortNewestFirst (db.status_history.filter
        (fun h => h.machine_id == machineId)) :=
    List.take_append_drop 20 _
  refine ⟨?_, ?_, ?_, ?_, ?_⟩
  · unfold loadHistoryDetail
    exact List.length_take_le 20 _
  · unfold loadHistoryDetail
    exact List.Pairwise.sublist (List.take_sublist 20 _) hsorted
  · intro x hx
    unfold loadHistoryDetail at hx
    have hx2 : x ∈ sortNewestFirst (db.status_history.filter
        (fun h => h.machine_id == machineId)) :=
      (List.take_sublist 20 _).mem hx
    have hx3 := hperm.mem_iff.mp hx2
    have hx4 := List.mem_filter.mp hx3
    exact ⟨hx4.1, beq_iff_eq.mp hx4.2⟩
  · intro x hx y hy
    unfold loadHistoryDetail at hx
    have h2 := hsorted
    rw [← hsplit] at h2
    exact (List.pairwise_append.mp h2).2.2 x hx y hy
  · unfold loadHistoryDetail
    rw [hsplit]
    exact hperm

/-- C10 witness: in `dbManyHist` (25 rows for m1) the view keeps at most
20 rows, the newest row is among them and belongs to the store, and the
oldest row — which the view drops — is no newer than the newest kept
row. -/
theorem history_detail_top20_witness :
    (loadHistoryDetail "m1" dbManyHist).length ≤ 20 ∧
    recTop ∈ dbManyHist.status_history ∧ recTop.machine_id = "m1" ∧
    recBot.changed_at ≤ recTop.changed_at := by
  have h := history_detail_top20 "m1" dbManyHist
  have hmemTop : recTop ∈ loadHistoryDetail "m1" dbManyHist := by decide
  have hmemBot : recBot ∈ (sortNewestFirst (dbManyHist.status_history.filter
      (fun r => r.machine_id == "m1"))).drop 20 := by decide
  exact ⟨h.1, (h.2.2.1 recTop hmemTop).1, (h.2.2.1 recTop hmemTop).2,
    h.2.2.2.1 recTop hmemTop recBot hmemBot⟩

end MachineMonitoring
